import Mathlib

/-!
Verification development for the live-detection frontend of the
Person_Detector repository (src/frontend/src/App.jsx, with the static upload
page also present in src/frontend/src/App.js).

The React component state together with the relevant browser runtime state
(active interval timers, pending fetch promises, the media-device handle, the
overlay canvas content) is embedded as an explicit record `LiveState`. Each
handler of App.jsx is translated to a pure function from state to state;
externally visible actions (network requests, toast notifications, timer
creation and cancellation, stopping device tracks) are returned as an explicit
effect list.

Modelling conventions, stated once:

* `videoRef` and `canvasRef` are taken as mounted (the live page is shown);
  the claims under study concern executions in that situation.

* React `useState` values are per-render snapshots, and a callback handed to
  `setInterval` keeps the snapshot of the render in which the effect ran.  A
  `Timer` therefore records the `liveConf` and `mirror` values captured by the
  interval callback at creation time, and a `Req` (a pending fetch started by
  `processLiveFrame`) records the width, height, confidence and mirror values
  captured by the invocation that issued it; the response continuation of
  that invocation uses exactly those captured values.

* Numbers are rationals.  `Math.round` is modelled by `jsRound` (floor of
  x + 1/2, ties towards positive infinity), and `toFixed(0)` on the
  nonnegative inputs that occur here coincides with `jsRound`.

* The overlay canvas content is the list of boxes drawn by the last
  `drawDetections` call; the empty list is a cleared overlay.  The filled
  label-background rectangle depends on `ctx.measureText`, a font-metric query
  of the browser, and is therefore not part of the rendered-box record; the
  claims under study do not mention it.

* `setInterval` returns a fresh numeric id; ids are drawn from the `nextId`
  counter of the state.  `clearInterval i` removes the timer with id `i` and
  is a no-op when no such timer is active, exactly as in the browser.
-/

namespace PersonDetector

/-- Math.round for the rational inputs occurring in App.jsx: floor of q + 1/2
(JavaScript rounds ties towards positive infinity). -/
def jsRound (q : ℚ) : ℤ := Int.floor (q + 1/2)

/-- The tick interval computed in `startLive` (App.jsx line 178) and in the
fps-reschedule effect (App.jsx line 220):
`Math.max(100, Math.round(1000 / Math.max(1, liveFps)))`. -/
def intervalMs (fps : ℕ) : ℤ := max 100 (jsRound (1000 / (max 1 (fps : ℚ))))

/-- The interval formula exactly as the claim states it,
`max(100, round(1000 / max(1, fps)))`, kept as a separate definition so that
the code formula can be compared against it. -/
def specIntervalMs (fps : ℕ) : ℤ := max 100 (jsRound (1000 / (max 1 (fps : ℚ))))

def greenHex : String := "#28a745"

def yellowHex : String := "#ffc107"

def redHex : String := "#dc3545"

/-- `getConfidenceColor` of App.jsx (lines 278-282). -/
def getConfidenceColor (confidence : ℚ) : String :=
  if confidence > 7/10 then greenHex
  else if confidence > 2/5 then yellowHex
  else redHex

/-- `getConfidenceColor` of App.js (lines 105-109), the static upload page;
embedded separately so that the two copies can be compared. -/
def getConfidenceColorStatic (confidence : ℚ) : String :=
  if confidence > 7/10 then greenHex
  else if confidence > 2/5 then yellowHex
  else redHex

structure DetectionBox where
  x1 : ℚ
  y1 : ℚ
  x2 : ℚ
  y2 : ℚ
deriving DecidableEq

/-- One detection returned by the server; `cls` embeds the JSON field named
`class`, which is a reserved word. -/
structure Detection where
  box : DetectionBox
  cls : String
  confidence : ℚ
deriving DecidableEq

/-- One box as drawn onto the overlay canvas by `drawDetections`: final
(possibly mirrored) coordinates, stroke color, and label text. -/
structure RenderedBox where
  x1 : ℚ
  y1 : ℚ
  x2 : ℚ
  y2 : ℚ
  color : String
  label : String
deriving DecidableEq

/-- The label string of App.jsx line 118:
the class, a space, `(confidence * 100).toFixed(0)` and a percent sign. -/
def detLabel (det : Detection) : String :=
  det.cls ++ " " ++ toString (jsRound (det.confidence * 100)) ++ "%"

/-- The per-detection body of `drawDetections` (App.jsx lines 104-125):
mirror transform on the x coordinates when `mirror` is set, stroke color from
`getConfidenceColor`, label text from class and confidence. -/
def renderOne (width : ℚ) (mirror : Bool) (det : Detection) : RenderedBox :=
  { x1 := if mirror then width - det.box.x2 else det.box.x1,
    y1 := det.box.y1,
    x2 := if mirror then width - det.box.x1 else det.box.x2,
    y2 := det.box.y2,
    color := getConfidenceColor det.confidence,
    label := detLabel det }

/-- `drawDetections` (App.jsx lines 95-126): the canvas is resized to the
frame and cleared, then every detection is drawn; the resulting overlay
content is the list of rendered boxes.  The height only sizes the canvas. -/
def renderDetections (width _height : ℚ) (dets : List Detection) (mirror : Bool) :
    List RenderedBox :=
  dets.map (renderOne width mirror)

/-- Externally visible actions of the component. -/
inductive Eff where
  | netLiveDetect (conf : ℚ)
  | toast (message : String)
  | setTimer (id : ℕ) (ms : ℤ)
  | clearTimer (id : ℕ)
  | stopTracks
deriving DecidableEq

/-- One active `setInterval` timer: its id, its interval, and the `liveConf`
and `mirror` snapshots captured by the `processLiveFrame` closure that was
passed to `setInterval`. -/
structure Timer where
  id : ℕ
  ms : ℤ
  conf : ℚ
  mirror : Bool
deriving DecidableEq

/-- One pending `/detect/live` fetch: its id, the captured frame width and
height, the confidence sent as the query parameter, and the `mirror` snapshot
the response continuation will render with. -/
structure Req where
  id : ℕ
  width : ℚ
  height : ℚ
  conf : ℚ
  mirror : Bool
deriving DecidableEq

/-- The component state of App.jsx restricted to the live page, plus the
browser runtime pieces the handlers touch. -/
@[ext]
structure LiveState where
  liveRunning : Bool
  liveError : String
  mirror : Bool
  liveFps : ℕ
  liveConf : ℚ
  timers : List Timer
  intervalRef : Option ℕ
  deviceActive : Bool
  overlay : List RenderedBox
  inflight : List Req
  nextId : ℕ
deriving DecidableEq

/-- The initial values of the `useState` hooks:
`liveRunning=false`, `mirror=true`, `liveFps=2`, `liveConf=0.25`. -/
def initLive : LiveState :=
  { liveRunning := false, liveError := "", mirror := true, liveFps := 2,
    liveConf := 1/4, timers := [], intervalRef := none, deviceActive := false,
    overlay := [], inflight := [], nextId := 0 }

/-- The observable session state: the code has a single boolean
`liveRunning`; `Running` abstracts `liveRunning = true` and `Idle` abstracts
`liveRunning = false`. -/
inductive SessionState where
  | Idle
  | Running
deriving DecidableEq

def sessionState (s : LiveState) : SessionState :=
  if s.liveRunning then SessionState.Running else SessionState.Idle

/-- `stopLive` (App.jsx lines 186-204): set `liveRunning` false; if
`intervalRef.current` is set, clear that interval and null the ref; if the
video has a stream, stop its tracks and drop it; clear the overlay. -/
def stopLive (s : LiveState) : LiveState × List Eff :=
  let s1 : LiveState := { s with liveRunning := false }
  let p2 : LiveState × List Eff :=
    match s1.intervalRef with
    | some i =>
        ({ s1 with timers := s1.timers.filter (fun t => t.id != i), intervalRef := none },
         [Eff.clearTimer i])
    | none => (s1, [])
  let p3 : LiveState × List Eff :=
    if p2.1.deviceActive then
      ({ p2.1 with deviceActive := false }, p2.2 ++ [Eff.stopTracks])
    else p2
  ({ p3.1 with overlay := [] }, p3.2)

/-- The body of one `processLiveFrame` invocation up to the fetch (App.jsx
lines 129-152), run by the timer `t`.  `frame = none` covers the silent early
returns: the video is absent, `readyState < 2` (NotReady), or `toBlob`
produced no blob.  `frame = some (w, h)` issues the fetch with the
confidence captured by the closure of `t` and leaves it pending. -/
def tickBody (s : LiveState) (t : Timer) (frame : Option (ℚ × ℚ)) :
    LiveState × List Eff :=
  match frame with
  | none => (s, [])
  | some wh =>
      ({ s with
           inflight := s.inflight ++
             [{ id := s.nextId, width := wh.1, height := wh.2,
                conf := t.conf, mirror := t.mirror }],
           nextId := s.nextId + 1 },
       [Eff.netLiveDetect t.conf])

/-- The browser firing the interval with id `i`: a no-op unless a timer with
that id is active, otherwise the captured `processLiveFrame` closure runs. -/
def fireTimer (s : LiveState) (i : ℕ) (frame : Option (ℚ × ℚ)) :
    LiveState × List Eff :=
  match s.timers.find? (fun t => t.id == i) with
  | some t => tickBody s t frame
  | none => (s, [])

/-- A pending fetch resolving with an ok response (App.jsx lines 153-156):
`drawDetections(w, h, data.detections)` runs with the values captured by the
issuing invocation, then `setLiveError('')`.  No session or generation token
is consulted. -/
def resolveSuccess (s : LiveState) (rid : ℕ) (dets : List Detection) :
    LiveState × List Eff :=
  match s.inflight.find? (fun r => r.id == rid) with
  | some r =>
      ({ s with inflight := s.inflight.filter (fun q => q.id != rid),
                overlay := renderDetections r.width r.height dets r.mirror,
                liveError := "" }, [])
  | none => (s, [])

def liveFailureMsg : String := "Live detection error."

/-- A pending fetch resolving with a network error, a non-ok response, or a
JSON parse error (App.jsx lines 157-161): one toast, then `stopLive()`. -/
def resolveFailure (s : LiveState) (rid : ℕ) : LiveState × List Eff :=
  match s.inflight.find? (fun r => r.id == rid) with
  | some _ =>
      let p := stopLive { s with inflight := s.inflight.filter (fun q => q.id != rid) }
      (p.1, Eff.toast liveFailureMsg :: p.2)
  | none => (s, [])

/-- The success path of `startLive` (App.jsx lines 167-184): clear
`liveError`, acquire the device, set `liveRunning`, and create the interval
timer whose closure captures the current `liveConf` and `mirror`. -/
def startLive (s : LiveState) : LiveState × List Eff :=
  let t : Timer :=
    { id := s.nextId, ms := intervalMs s.liveFps, conf := s.liveConf, mirror := s.mirror }
  ({ s with liveError := "", deviceActive := true, liveRunning := true,
            timers := s.timers ++ [t], intervalRef := some t.id,
            nextId := s.nextId + 1 },
   [Eff.setTimer t.id t.ms])

/-- The cleanup function of the fps-reschedule effect (App.jsx lines
222-224): clear the interval held by the ref, without nulling the ref. -/
def effectCleanup (s : LiveState) : LiveState × List Eff :=
  match s.intervalRef with
  | some i => ({ s with timers := s.timers.filter (fun t => t.id != i) }, [Eff.clearTimer i])
  | none => (s, [])

/-- The body of the fps-reschedule effect (App.jsx lines 217-221): return if
not running; otherwise clear the interval held by the ref and create a new
one at the interval for the current fps, capturing the current `liveConf` and
`mirror` in the new closure. -/
def effectBody (s : LiveState) : LiveState × List Eff :=
  if s.liveRunning then
    let p1 : LiveState × List Eff :=
      match s.intervalRef with
      | some i =>
          ({ s with timers := s.timers.filter (fun t => t.id != i) }, [Eff.clearTimer i])
      | none => (s, [])
    let t : Timer :=
      { id := p1.1.nextId, ms := intervalMs p1.1.liveFps,
        conf := p1.1.liveConf, mirror := p1.1.mirror }
    ({ p1.1 with timers := p1.1.timers ++ [t], intervalRef := some t.id,
                 nextId := p1.1.nextId + 1 },
     p1.2 ++ [Eff.setTimer t.id t.ms])
  else (s, [])

/-- One rerun of the effect with dependency list `[liveFps, liveRunning]`:
React runs the previous cleanup, then the body. -/
def rescheduleEffect (s : LiveState) : LiveState × List Eff :=
  let p1 := effectCleanup s
  let p2 := effectBody p1.1
  (p2.1, p1.2 ++ p2.2)

/-- The fps slider handler followed by the effect rerun its state change
triggers (the dependency `liveFps` changed). -/
def changeFps (s : LiveState) (f : ℕ) : LiveState × List Eff :=
  rescheduleEffect { s with liveFps := f }

/-- The confidence slider handler: `setLiveConf` only; the effect dependency
list `[liveFps, liveRunning]` is unchanged, so no reschedule happens and the
existing timer keeps its captured closure. -/
def setLiveConfOp (s : LiveState) (c : ℚ) : LiveState := { s with liveConf := c }

/-- The mirror checkbox handler: `setMirror` only; as with `setLiveConf`, no
reschedule happens. -/
def setMirrorOp (s : LiveState) (m : Bool) : LiveState := { s with mirror := m }

/-- The browser-runtime invariant relating the ref to the active timers:
every active interval is the one held by `intervalRef.current`.  It holds in
every reachable state because each site that creates an interval stores its
id in the ref and clears the previously held one first. -/
def TimerInv (s : LiveState) : Prop :=
  ∀ t ∈ s.timers, s.intervalRef = some t.id

instance (s : LiveState) : Decidable (TimerInv s) :=
  inferInstanceAs (Decidable (∀ t ∈ s.timers, s.intervalRef = some t.id))

def isToastEff : Eff → Bool
  | Eff.toast _ => true
  | _ => false

def toastCount (l : List Eff) : ℕ := (l.filter isToastEff).length

/- ------------------------------------------------------------------ -/
/- Upload page: file selection and validation (App.jsx lines 70-92 and
   App.js lines 38-60; the two handlers are identical). -/

def invalidTypeMsg : String := "Invalid file type. Please upload a JPG, PNG, or BMP image."

def tooLargeMsg : String := "Image size is too large. Maximum size is 5MB."

def allowedTypes : List String := ["image/jpeg", "image/png", "image/bmp"]

/-- `5 * 1024 * 1024`, the `maxSize` constant of `handleFileChange`. -/
def maxUploadSize : ℕ := 5 * 1024 * 1024

/-- The fields of a selected File object that `handleFileChange` reads. -/
structure FileMeta where
  name : String
  mime : String
  size : ℕ
deriving DecidableEq

/-- `URL.createObjectURL`, modelled as a deterministic blob url; the claims
only compare the preview for equality and replacement. -/
def objectURL (f : FileMeta) : String := "blob:" ++ f.name

/-- The upload-page component state touched by `handleFileChange`; `result`
holds the (opaque) response of a previous detection, if any. -/
@[ext]
structure UploadState where
  file : Option FileMeta
  preview : String
  error : String
  result : Option String
deriving DecidableEq

/-- `handleFileChange`: nothing happens with no selected file; an unlisted
MIME type or a size above 5 MiB only sets the error message; a valid file
replaces `file` and `preview` and clears `error` and `result`.  The empty
effect list records that no network request is issued on any path. -/
def handleFileChange (s : UploadState) (sel : Option FileMeta) :
    UploadState × List Eff :=
  match sel with
  | none => (s, [])
  | some f =>
      if f.mime ∉ allowedTypes then
        ({ s with error := invalidTypeMsg }, [])
      else if maxUploadSize < f.size then
        ({ s with error := tooLargeMsg }, [])
      else
        ({ s with file := some f, preview := objectURL f, error := "", result := none }, [])

/-- A file accepted by the validation: png, 1 KiB. -/
def goodFile : FileMeta := { name := "photo.png", mime := "image/png", size := 1024 }

/-- A file with an unlisted MIME type. -/
def badTypeFile : FileMeta := { name := "photo.gif", mime := "image/gif", size := 1024 }

/-- A png of 6 MiB, above the 5 MiB limit. -/
def bigFile : FileMeta := { name := "big.png", mime := "image/png", size := 6 * 1024 * 1024 }

def prevResultTag : String := "previous-detection-result"

/-- An upload state in which a valid file was previously selected and a
detection result is displayed. -/
def prevUpload : UploadState :=
  { file := some goodFile, preview := objectURL goodFile, error := "",
    result := some prevResultTag }

/- ------------------------------------------------------------------ -/
/- Concrete execution used by several claims: start a session from the
   initial configuration (fps 2, conf 0.25, mirror on), let the reschedule
   effect run, fire one tick capturing a 640x480 frame. -/

/-- The detection of the end-to-end scenario in the spec. -/
def personDet : Detection :=
  { box := { x1 := 100, y1 := 50, x2 := 200, y2 := 150 },
    cls := "person", confidence := 85/100 }

def sStarted : LiveState := (startLive initLive).1

def sEffect : LiveState := (rescheduleEffect sStarted).1

def sTicked : LiveState := (fireTimer sEffect 1 (some (640, 480))).1

def sStopped : LiveState := (stopLive sTicked).1

def sLate : LiveState := (resolveSuccess sStopped 2 [personDet]).1

/- ------------------------------------------------------------------ -/
/- Helper lemmas: explicit values of the scenario states, and the
   behaviour of stopLive. -/

theorem sStarted_eq : sStarted =
    { liveRunning := true, liveError := "", mirror := true, liveFps := 2,
      liveConf := 1/4, timers := [⟨0, intervalMs 2, 1/4, true⟩], intervalRef := some 0,
      deviceActive := true, overlay := [], inflight := [], nextId := 1 } := by
  simp [sStarted, startLive, initLive]

theorem sEffect_eq : sEffect =
    { liveRunning := true, liveError := "", mirror := true, liveFps := 2,
      liveConf := 1/4, timers := [⟨1, intervalMs 2, 1/4, true⟩], intervalRef := some 1,
      deviceActive := true, overlay := [], inflight := [], nextId := 2 } := by
  simp [sEffect, rescheduleEffect, effectCleanup, effectBody, sStarted_eq]

theorem sTicked_eq : sTicked =
    { liveRunning := true, liveError := "", mirror := true, liveFps := 2,
      liveConf := 1/4, timers := [⟨1, intervalMs 2, 1/4, true⟩], intervalRef := some 1,
      deviceActive := true, overlay := [], inflight := [⟨2, 640, 480, 1/4, true⟩],
      nextId := 3 } := by
  simp [sTicked, fireTimer, tickBody, sEffect_eq]

theorem sStopped_eq : sStopped =
    { liveRunning := false, liveError := "", mirror := true, liveFps := 2,
      liveConf := 1/4, timers := [], intervalRef := none,
      deviceActive := false, overlay := [], inflight := [⟨2, 640, 480, 1/4, true⟩],
      nextId := 3 } := by
  simp [sStopped, stopLive, sTicked_eq]

theorem sLate_eq : sLate =
    { liveRunning := false, liveError := "", mirror := true, liveFps := 2,
      liveConf := 1/4, timers := [], intervalRef := none,
      deviceActive := false,
      overlay := [{ x1 := 440, y1 := 50, x2 := 540, y2 := 150,
                    color := greenHex, label := "person 85%" }],
      inflight := [], nextId := 3 } := by
  have h85 : jsRound (85:ℚ) = 85 := by unfold jsRound; norm_num
  simp [sLate, resolveSuccess, sStopped_eq, renderDetections, renderOne, getConfidenceColor,
        detLabel, personDet, h85]
  refine ⟨by norm_num, by norm_num, fun h => absurd h (by norm_num), by decide⟩

theorem stopLive_fst_liveRunning (s : LiveState) : (stopLive s).1.liveRunning = false := by
  unfold stopLive
  cases h : s.intervalRef <;> by_cases hd : s.deviceActive <;> simp [h, hd]

theorem stopLive_fst_intervalRef (s : LiveState) : (stopLive s).1.intervalRef = none := by
  unfold stopLive
  cases h : s.intervalRef <;> by_cases hd : s.deviceActive <;> simp [h, hd]

theorem stopLive_fst_deviceActive (s : LiveState) : (stopLive s).1.deviceActive = false := by
  unfold stopLive
  cases h : s.intervalRef <;> by_cases hd : s.deviceActive <;> simp [h, hd]

theorem stopLive_fst_overlay (s : LiveState) : (stopLive s).1.overlay = [] := by
  unfold stopLive
  cases h : s.intervalRef <;> by_cases hd : s.deviceActive <;> simp [h, hd]

theorem stopLive_fst_inflight (s : LiveState) : (stopLive s).1.inflight = s.inflight := by
  unfold stopLive
  cases h : s.intervalRef <;> by_cases hd : s.deviceActive <;> simp [h, hd]

theorem stopLive_fst_timers (s : LiveState) (hinv : TimerInv s) :
    (stopLive s).1.timers = [] := by
  unfold stopLive
  cases h : s.intervalRef with
  | none =>
      have hnil : s.timers = [] := by
        cases ht : s.timers with
        | nil => rfl
        | cons a l =>
            exact absurd ((hinv a (by rw [ht]; exact List.mem_cons_self a l)).symm.trans h)
              (by simp)
      by_cases hd : s.deviceActive <;> simp [h, hd, hnil]
  | some i =>
      have hnil : s.timers.filter (fun t => t.id != i) = [] := by
        apply List.filter_eq_nil_iff.mpr
        intro t ht
        have hti := hinv t ht
        rw [h] at hti
        simp at hti
        simp [hti]
      by_cases hd : s.deviceActive <;> simp [h, hd, hnil]

theorem stopLive_snd_no_toast (s : LiveState) : toastCount (stopLive s).2 = 0 := by
  unfold stopLive
  cases h : s.intervalRef <;> by_cases hd : s.deviceActive <;>
    simp [h, hd, toastCount, isToastEff]

theorem stopLive_stopped (s : LiveState) (h1 : s.liveRunning = false)
    (h2 : s.intervalRef = none) (h3 : s.deviceActive = false) (h4 : s.overlay = []) :
    stopLive s = (s, []) := by
  obtain ⟨f1, f2, f3, f4, f5, f6, f7, f8, f9, f10, f11⟩ := s
  simp only at h1 h2 h3 h4
  subst h1; subst h2; subst h3; subst h4
  rfl

theorem stopLive_idem (s : LiveState) : stopLive (stopLive s).1 = ((stopLive s).1, []) :=
  stopLive_stopped _ (stopLive_fst_liveRunning s) (stopLive_fst_intervalRef s)
    (stopLive_fst_deviceActive s) (stopLive_fst_overlay s)

/- ------------------------------------------------------------------ -/
/- Claims. -/

/-- Claim C1 is refuted on a concrete execution: start the live session from
the initial configuration, fire one tick that captures a 640x480 frame and
leaves its fetch pending, call stopLive (all timers gone, overlay cleared,
the request still outstanding), then let the pending response arrive with one
detection.  The late response is rendered onto the overlay (it becomes
nonempty again), so a network call in flight at the moment of stop does cause
a render, contrary to the claim. -/
theorem stopLive_late_response_renders :
    sStopped.timers = [] ∧ sStopped.intervalRef = none ∧ sStopped.overlay = [] ∧
    sStopped.inflight ≠ [] ∧ sLate.overlay ≠ [] := by
  refine ⟨?_, ?_, ?_, ?_, ?_⟩ <;> simp [sStopped_eq, sLate_eq]

/-- Claim C1 (amended): after stopLive returns no further tick fires, because
the interval is cancelled, so firing any timer id is a no-op on the stopped
state; but there is no generation or session token, and a detection response
in flight at the moment of stop is still rendered onto the overlay when it
arrives, as witnessed by the concrete execution ending in sLate. -/
theorem stopLive_amended_spec (s : LiveState) (i : ℕ) (frame : Option (ℚ × ℚ))
    (hinv : TimerInv s) :
    fireTimer (stopLive s).1 i frame = ((stopLive s).1, []) ∧
    sLate.overlay = [{ x1 := 440, y1 := 50, x2 := 540, y2 := 150,
                       color := greenHex, label := "person 85%" }] := by
  constructor
  · unfold fireTimer
    rw [stopLive_fst_timers s hinv]
    rfl
  · simp [sLate_eq]

theorem stopLive_amended_spec_witness :
    fireTimer (stopLive sTicked).1 1 (some (640, 480)) = ((stopLive sTicked).1, []) :=
  (stopLive_amended_spec sTicked 1 (some (640, 480)) (by decide)).1

/-- Claim C2: when the detection request of a live tick fails (network error,
non-ok response, or parse error), the session goes from Running to Idle: the
tick loop is stopped (no timer remains and the ref is cleared), the device is
released, and exactly one toast notification is triggered. -/
theorem liveFailure_terminates_session (s : LiveState) (rid : ℕ)
    (hinv : TimerInv s) (hrun : s.liveRunning = true)
    (hfind : (s.inflight.find? (fun q => q.id == rid)).isSome = true) :
    sessionState (resolveFailure s rid).1 = SessionState.Idle ∧
    (resolveFailure s rid).1.timers = [] ∧
    (resolveFailure s rid).1.intervalRef = none ∧
    (resolveFailure s rid).1.deviceActive = false ∧
    toastCount (resolveFailure s rid).2 = 1 := by
  obtain ⟨r, hr⟩ := Option.isSome_iff_exists.mp hfind
  unfold resolveFailure
  rw [hr]
  have hinv1 : TimerInv { s with inflight := s.inflight.filter (fun q => q.id != rid) } :=
    fun t ht => hinv t ht
  refine ⟨?_, stopLive_fst_timers _ hinv1, stopLive_fst_intervalRef _,
          stopLive_fst_deviceActive _, ?_⟩
  · simp [sessionState, stopLive_fst_liveRunning]
  · have h0 := stopLive_snd_no_toast
      { s with inflight := s.inflight.filter (fun q => q.id != rid) }
    simp [toastCount, isToastEff] at h0 ⊢
    exact h0

theorem liveFailure_terminates_session_witness :
    sessionState (resolveFailure sTicked 2).1 = SessionState.Idle ∧
    (resolveFailure sTicked 2).1.timers = [] ∧
    (resolveFailure sTicked 2).1.intervalRef = none ∧
    (resolveFailure sTicked 2).1.deviceActive = false ∧
    toastCount (resolveFailure sTicked 2).2 = 1 :=
  liveFailure_terminates_session sTicked 2 (by decide) (by decide) (by decide)

/-- Claim C3: the tick interval used by startLive and by the fps reschedule
equals max(100, round(1000 / max(1, fps))); fps 2 gives 500ms, fps 10 gives
100ms, fps 1 gives 1000ms, and the schedule is never faster than every
100ms. -/
theorem intervalMs_spec :
    (∀ f : ℕ, 1 ≤ f → f ≤ 10 → intervalMs f = specIntervalMs f) ∧
    intervalMs 2 = 500 ∧ intervalMs 10 = 100 ∧ intervalMs 1 = 1000 ∧
    (∀ f : ℕ, 100 ≤ intervalMs f) ∧
    (∀ s : LiveState, (startLive s).2 = [Eff.setTimer s.nextId (intervalMs s.liveFps)]) ∧
    (∀ s : LiveState, ∀ f : ℕ, s.liveRunning = true →
        Eff.setTimer s.nextId (intervalMs f) ∈ (changeFps s f).2) := by
  refine ⟨fun f _ _ => rfl, ?_, ?_, ?_, fun f => le_max_left _ _, fun s => rfl, ?_⟩
  · unfold intervalMs jsRound; norm_num [max_def]
  · unfold intervalMs jsRound; norm_num [max_def]
  · unfold intervalMs jsRound; norm_num [max_def]
  · intro s f hrun
    cases h : s.intervalRef <;>
      simp [changeFps, rescheduleEffect, effectCleanup, effectBody, h, hrun]

theorem intervalMs_spec_witness :
    intervalMs 3 = specIntervalMs 3 ∧
    Eff.setTimer sStarted.nextId (intervalMs 5) ∈ (changeFps sStarted 5).2 :=
  ⟨intervalMs_spec.1 3 (by norm_num) (by norm_num),
   intervalMs_spec.2.2.2.2.2.2 sStarted 5 rfl⟩

/-- Claim C4: with mirror on, the renderer reflects the x coordinates of
every box as x1 = width - x2 and x2 = width - x1 and keeps the y coordinates;
on the concrete 640x480 frame with the person detection at confidence 0.85,
the rendered box is at 440..540 horizontally, keeps y 50..150, has the green
high-confidence stroke color, and the label reads person 85%. -/
theorem drawDetections_mirror_spec :
    (∀ (w : ℚ) (det : Detection),
        (renderOne w true det).x1 = w - det.box.x2 ∧
        (renderOne w true det).x2 = w - det.box.x1 ∧
        (renderOne w true det).y1 = det.box.y1 ∧
        (renderOne w true det).y2 = det.box.y2) ∧
    renderDetections 640 480 [personDet] true =
      [{ x1 := 440, y1 := 50, x2 := 540, y2 := 150,
         color := greenHex, label := "person 85%" }] := by
  constructor
  · intro w det
    exact ⟨rfl, rfl, rfl, rfl⟩
  · have h85 : jsRound (85:ℚ) = 85 := by unfold jsRound; norm_num
    simp [renderDetections, renderOne, getConfidenceColor, detLabel, personDet, h85]
    refine ⟨by norm_num, by norm_num, fun h => absurd h (by norm_num), by decide⟩

/-- Claim C5: confidence-to-color is the fixed 3-bucket function with strict
thresholds 0.7 and 0.4; 0.71 is high, 0.70 and 0.41 are medium, 0.40 is low;
the App.jsx copy and the App.js (static upload view) copy agree everywhere,
and the live renderer colors every box with this function. -/
theorem getConfidenceColor_spec :
    (∀ c : ℚ, getConfidenceColor c = getConfidenceColorStatic c) ∧
    getConfidenceColor (71/100) = greenHex ∧
    getConfidenceColor (70/100) = yellowHex ∧
    getConfidenceColor (41/100) = yellowHex ∧
    getConfidenceColor (40/100) = redHex ∧
    (∀ c : ℚ, 7/10 < c → getConfidenceColor c = greenHex) ∧
    (∀ c : ℚ, c ≤ 7/10 → 2/5 < c → getConfidenceColor c = yellowHex) ∧
    (∀ c : ℚ, c ≤ 2/5 → getConfidenceColor c = redHex) ∧
    (∀ (w : ℚ) (m : Bool) (det : Detection),
        (renderOne w m det).color = getConfidenceColor det.confidence) := by
  refine ⟨fun c => rfl, ?_, ?_, ?_, ?_, ?_, ?_, ?_, fun w m det => rfl⟩
  · unfold getConfidenceColor; norm_num
  · unfold getConfidenceColor; norm_num
  · unfold getConfidenceColor; norm_num
  · unfold getConfidenceColor; norm_num
  · intro c h
    unfold getConfidenceColor
    rw [if_pos h]
  · intro c h1 h2
    unfold getConfidenceColor
    rw [if_neg (not_lt.mpr h1), if_pos h2]
  · intro c h
    unfold getConfidenceColor
    rw [if_neg (not_lt.mpr (h.trans (by norm_num))), if_neg (not_lt.mpr h)]

theorem getConfidenceColor_spec_witness :
    getConfidenceColor (8/10) = greenHex ∧
    getConfidenceColor (1/2) = yellowHex ∧
    getConfidenceColor (3/10) = redHex :=
  ⟨getConfidenceColor_spec.2.2.2.2.2.1 (8/10) (by norm_num),
   getConfidenceColor_spec.2.2.2.2.2.2.1 (1/2) (by norm_num) (by norm_num),
   getConfidenceColor_spec.2.2.2.2.2.2.2.1 (3/10) (by norm_num)⟩

/-- Claim C6 fails on the code: the interval callback keeps the confidence
and mirror snapshots captured when the timer was created, because the
reschedule effect depends only on liveFps and liveRunning.  Concretely, in a
session started with confidence 0.25 and mirror on, setting the confidence
slider to 0.9 leaves the timer closure at 0.25 and the next tick sends
conf=0.25; unchecking mirror leaves the closure at mirror=true and the next
render still reflects the box to 440..540. -/
theorem staleConfig_tick_uses_captured_values :
    (setLiveConfOp sEffect (9/10)).liveConf = 9/10 ∧
    (setLiveConfOp sEffect (9/10)).timers =
      [{ id := 1, ms := intervalMs 2, conf := 1/4, mirror := true }] ∧
    (fireTimer (setLiveConfOp sEffect (9/10)) 1 (some (640, 480))).2 =
      [Eff.netLiveDetect (1/4)] ∧
    ((1:ℚ)/4 ≠ 9/10) ∧
    (setMirrorOp sEffect false).mirror = false ∧
    (resolveSuccess (fireTimer (setMirrorOp sEffect false) 1 (some (640, 480))).1
        2 [personDet]).1.overlay =
      [{ x1 := 440, y1 := 50, x2 := 540, y2 := 150,
         color := greenHex, label := "person 85%" }] := by
  have h85 : jsRound (85:ℚ) = 85 := by unfold jsRound; norm_num
  refine ⟨by simp [setLiveConfOp, sEffect_eq], by simp [setLiveConfOp, sEffect_eq],
          ?_, by norm_num, by simp [setMirrorOp, sEffect_eq], ?_⟩
  · simp [fireTimer, tickBody, setLiveConfOp, sEffect_eq]
  · simp [resolveSuccess, fireTimer, tickBody, setMirrorOp, sEffect_eq,
          renderDetections, renderOne, getConfidenceColor, detLabel, personDet, h85]
    refine ⟨by norm_num, by norm_num, fun h => absurd h (by norm_num), by decide⟩

/-- Claim C7: stopLive from any state satisfying the timer-ref invariant ends
Idle with no timer, a cleared ref, a released device and a cleared overlay;
and a second call is a no-op: it returns the same state and performs no
effect at all (no timer cancelled twice, no device operation). -/
theorem stopLive_idempotent_spec (s : LiveState) (hinv : TimerInv s) :
    sessionState (stopLive s).1 = SessionState.Idle ∧
    (stopLive s).1.timers = [] ∧
    (stopLive s).1.intervalRef = none ∧
    (stopLive s).1.deviceActive = false ∧
    (stopLive s).1.overlay = [] ∧
    stopLive (stopLive s).1 = ((stopLive s).1, []) := by
  refine ⟨?_, stopLive_fst_timers s hinv, stopLive_fst_intervalRef s,
          stopLive_fst_deviceActive s, stopLive_fst_overlay s, stopLive_idem s⟩
  simp [sessionState, stopLive_fst_liveRunning]

theorem stopLive_idempotent_spec_witness :
    sessionState (stopLive sTicked).1 = SessionState.Idle ∧
    (stopLive sTicked).1.timers = [] ∧
    (stopLive sTicked).1.intervalRef = none ∧
    (stopLive sTicked).1.deviceActive = false ∧
    (stopLive sTicked).1.overlay = [] ∧
    stopLive (stopLive sTicked).1 = ((stopLive sTicked).1, []) :=
  stopLive_idempotent_spec sTicked (by decide)

/-- Claim C8: a tick whose frame capture does not produce a frame (video
absent, readyState below 2, or no blob) is skipped silently: the state is
unchanged and no effect of any kind (no network call, no toast, no overlay
change) is produced. -/
theorem notReady_tick_silent (s : LiveState) (i : ℕ) :
    fireTimer s i none = (s, []) := by
  unfold fireTimer
  cases h : s.timers.find? (fun t => t.id == i) <;> simp [h, tickBody]

/-- Claim C9: handleFileChange rejects a file whose MIME type is not
image/jpeg, image/png or image/bmp, and a file over 5 MiB, locally: it only
sets the fixed user-visible message and performs no effect (in particular no
network request); a file satisfying both constraints is accepted. -/
theorem handleFileChange_validation_spec (s : UploadState) (f : FileMeta) :
    (f.mime ∉ allowedTypes →
        handleFileChange s (some f) = ({ s with error := invalidTypeMsg }, [])) ∧
    (f.mime ∈ allowedTypes → maxUploadSize < f.size →
        handleFileChange s (some f) = ({ s with error := tooLargeMsg }, [])) ∧
    (f.mime ∈ allowedTypes → f.size ≤ maxUploadSize →
        handleFileChange s (some f) =
          ({ s with file := some f, preview := objectURL f, error := "", result := none }, [])) := by
  refine ⟨fun h => ?_, fun h1 h2 => ?_, fun h1 h2 => ?_⟩
  · simp [handleFileChange, h]
  · simp [handleFileChange, h1, h2]
  · simp [handleFileChange, h1, Nat.not_lt.mpr h2]

theorem handleFileChange_validation_spec_witness :
    handleFileChange prevUpload (some badTypeFile) =
      ({ prevUpload with error := invalidTypeMsg }, []) ∧
    handleFileChange prevUpload (some goodFile) =
      ({ prevUpload with file := some goodFile, preview := objectURL goodFile,
                         error := "", result := none }, []) :=
  ⟨(handleFileChange_validation_spec prevUpload badTypeFile).1 (by decide),
   (handleFileChange_validation_spec prevUpload goodFile).2.2 (by decide) (by decide)⟩

/-- Claim C10: rejection is atomic: a file failing type or size validation
only sets the error message and leaves the previously selected file, its
preview and any previous result untouched; a file passing validation replaces
file and preview and clears error and result. -/
theorem handleFileChange_atomic_spec (s : UploadState) (f : FileMeta) :
    ((f.mime ∉ allowedTypes ∨ maxUploadSize < f.size) →
        (handleFileChange s (some f)).1.file = s.file ∧
        (handleFileChange s (some f)).1.preview = s.preview ∧
        (handleFileChange s (some f)).1.result = s.result ∧
        (handleFileChange s (some f)).1.error ≠ "") ∧
    (f.mime ∈ allowedTypes → f.size ≤ maxUploadSize →
        (handleFileChange s (some f)).1.file = some f ∧
        (handleFileChange s (some f)).1.preview = objectURL f ∧
        (handleFileChange s (some f)).1.error = "" ∧
        (handleFileChange s (some f)).1.result = none) := by
  constructor
  · intro hbad
    by_cases h : f.mime ∈ allowedTypes
    · rcases hbad with hb | hb
      · exact absurd h hb
      · simp [handleFileChange, h, hb]
        decide
    · simp [handleFileChange, h]
      decide
  · intro h1 h2
    simp [handleFileChange, h1, Nat.not_lt.mpr h2]

theorem handleFileChange_atomic_spec_witness :
    (handleFileChange prevUpload (some bigFile)).1.file = prevUpload.file ∧
    (handleFileChange prevUpload (some bigFile)).1.preview = prevUpload.preview ∧
    (handleFileChange prevUpload (some bigFile)).1.result = prevUpload.result ∧
    (handleFileChange prevUpload (some bigFile)).1.error ≠ "" :=
  (handleFileChange_atomic_spec prevUpload bigFile).1 (Or.inr (by decide))

end PersonDetector
